import Mathlib

/-
  Shallow embedding of
  src/ai-tax-management-system/server/src/usecase/content_extraction.py
  (class ContentExtraction), covering URN extraction, the analysis poller,
  the success-branch classification handler, folder processing with natural
  sort, and the reconciliation matcher.
-/

namespace CE

/-! ## URN extraction (`_extract_urn_from_content`, lines 60-89)

The code strips the content and searches for the Python regex
`\b\d{10,}\b`: the leftmost maximal run of at least ten decimal digits whose
neighbouring characters (when they exist) are not word characters.
We model characters at the ASCII level (`Char.isDigit`, `Char.isAlpha`). -/

/-- Python regex word character (the class backslash-w): letter, digit or
underscore. -/
def isWordChar (c : Char) : Bool :=
  c.isAlpha || c.isDigit || c = '_'

/-- Python `str.strip()`: drop leading and trailing whitespace. -/
def pyStrip (s : String) : List Char :=
  ((s.toList.dropWhile Char.isWhitespace).reverse.dropWhile Char.isWhitespace).reverse

/-- One-pass scan for the leftmost match of the regex `\b\d{10,}\b`.
`run` is the reversed digit run currently being read (empty when outside a
run; a run is only entered at a word boundary, since a digit preceded by a
word character cannot start a match), and `prevBoundary` records whether the
previous character (or the start of the string) permits a word boundary. -/
def urnScan : List Char → Bool → List Char → Option String
  | run, _, [] =>
    if 10 ≤ run.length then some (String.mk run.reverse) else none
  | run, prevBoundary, c :: cs =>
    if c.isDigit then
      if run.isEmpty then
        if prevBoundary then urnScan [c] prevBoundary cs
        else urnScan [] false cs
      else urnScan (c :: run) prevBoundary cs
    else
      if 10 ≤ run.length && !isWordChar c then some (String.mk run.reverse)
      else urnScan [] (!isWordChar c) cs

/-- Embeds `_extract_urn_from_content`: strip the content, then return the
first boundary-delimited run of ten or more digits, or `None`.  The Python
body wraps the search in a try/except returning `None`, so it never raises:
the `Option` result is total by construction. -/
def extractUrnFromContent (content : String) : Option String :=
  urnScan [] true (pyStrip content)

/-! ## Python dictionaries holding extraction results

The LLM extraction calls return dictionaries to which the code assigns the
keys `urn`, `invoiceId` / `taxInvoiceId`, `documentUrl` and `total_pages`.
We model a dictionary as an association list with Python assignment
semantics (replace an existing key in place, else append). -/

/-- A JSON-ish value stored in an extraction-result dictionary. -/
inductive Value where
  | null
  | str (s : String)
  | num (n : Nat)
deriving Repr, DecidableEq

/-- `Value` of a Python `Optional[str]`: `None` becomes `null`. -/
def Value.ofOptStr : Option String → Value
  | none => .null
  | some s => .str s

/-- An extraction-result dictionary. -/
abbrev Dict := List (String × Value)

/-- Python `d[k] = v`: replace in place when the key exists, else append. -/
def setKey : Dict → String → Value → Dict
  | [], k, v => [(k, v)]
  | (k', v') :: rest, k, v =>
    if k' = k then (k, v) :: rest else (k', v') :: setKey rest k v

/-- Python `d.get(k)`: first binding of the key, if any. -/
def getKey : Dict → String → Option Value
  | [], _ => none
  | (k', v') :: rest, k => if k' = k then some v' else getKey rest k

/-! ## Content types

`ContentType` is imported from `common.const`, but that module in the
repository defines only `ResponseStatus` and `Environment`. -/

/-- Modelled from the spec: the missing `ContentType` enum's `Invoice` tag
(spec section 4.2 lists the tags Invoice, TaxInvoice, GeneralLedger,
Unknown; only equality with the classifier's string output matters). -/
def ContentTypeInvoice : String := "Invoice"

/-- Modelled from the spec: the missing `ContentType` enum's `TaxInvoice`
tag. -/
def ContentTypeTaxInvoice : String := "TaxInvoice"

/-- Modelled from the spec: the missing `ContentType` enum's `GeneralLedger`
tag. -/
def ContentTypeGeneralLedger : String := "GeneralLedger"

/-- Modelled from the spec: the missing `ContentType` enum's `Unknown` tag
(the default used by `content_classification.get("classification", ...)`). -/
def ContentTypeUnknown : String := "Unknown"

/-! ## The success branch of `_wait_for_analysis_result` (lines 128-217)

Collaborator calls are modelled as functions into `Except String`, where
`Except.error` is a raised Python exception. -/

/-- The multi-page tax-invoice accumulation state: the caller's
`accumulated_tax_invoice_content` and `accumulated_tax_invoice_urls` lists,
mutated in place by `_wait_for_analysis_result`. -/
structure AccState where
  content : List String
  urls : List (Option String)
deriving Repr, DecidableEq

/-- A polled analyzer response: its `status` string and, when present, the
page text `result.result.contents[0].markdown` (absence models the lookup
raising `KeyError`). -/
structure AnalyzerResult where
  status : String
  markdown : Option String
deriving Repr, DecidableEq

/-- The value of the Python local `result` at the moment it is returned:
the raw analyzer response, an extraction-result dictionary, or the
literal message dictionary built for unknown content types. -/
inductive ResultVal where
  | raw (r : AnalyzerResult)
  | doc (d : Dict)
  | msg (s : String)
deriving Repr, DecidableEq

/-- Output of the content classifier (already including the defaults the
code applies with `.get`): the classification string and the
`is_document_complete` flag. -/
structure ClassifyOut where
  classification : String
  isDocumentComplete : Bool
deriving Repr, DecidableEq

/-- The collaborators used by the success branch. `hasLLM` / `hasCosmos`
model whether the optional repositories were injected; `newId` is the
`uuid.uuid4()` value generated for the record identifier. -/
structure HandlerEnv where
  hasLLM : Bool
  hasCosmos : Bool
  classify : String → Except String ClassifyOut
  extractInvoice : String → Except String Dict
  extractTaxInvoice : String → Except String Dict
  extractGL : String → Except String Dict
  createDoc : String → Dict → Except String Unit
  mergePdfs : List (Option String) → Except String (Option String)
  newId : String

/-- Effects of one pass through the success branch: the returned value
(`none` is Python `return None` for an incomplete tax-invoice page), the
accumulation lists as left by the branch, the documents successfully
persisted via `create_document` (container, document), and the exception
caught by the `except` clause at line 212, if any (it is only logged). -/
structure HandlerOut where
  ret : Option ResultVal
  acc : AccState
  persisted : List (String × Dict)
  handledError : Option String
deriving Repr, DecidableEq

/-- The page-break separator joining accumulated page texts (line 174). -/
def pageBreakSep : String := "\n\n--- PAGE BREAK ---\n\n"

/-- Embeds lines 128-217 of `_wait_for_analysis_result`: the handling of a
`Succeeded` analyzer response.  Everything from line 134 to line 211 runs
inside a try whose `except` (line 212) logs the exception and falls through
to `return result` (line 217); mutations performed before the exception
(list appends, `result` reassignment) survive. -/
def successPath (env : HandlerEnv) (result0 : AnalyzerResult)
    (fileUrl : Option String) (acc : AccState) : HandlerOut :=
  if !env.hasLLM then
    -- line 215: no LLM service, classification skipped, raw result returned
    ⟨some (.raw result0), acc, [], none⟩
  else
    match result0.markdown with
    | none =>
      -- the content lookup raised; caught at line 212, raw result returned
      ⟨some (.raw result0), acc, [], some "KeyError"⟩
    | some content =>
      let urn := extractUrnFromContent content
      match env.classify content with
      | .error e => ⟨some (.raw result0), acc, [], some e⟩
      | .ok cls =>
        if cls.classification = ContentTypeInvoice then
          match env.extractInvoice content with
          | .error e => ⟨some (.raw result0), acc, [], some e⟩
          | .ok d0 =>
            let d := setKey (setKey (setKey d0
              "urn" (Value.ofOptStr urn))
              "invoiceId" (.str env.newId))
              "documentUrl" (Value.ofOptStr fileUrl)
            if env.hasCosmos && urn.isSome then
              match env.createDoc "invoices" d with
              | .error e => ⟨some (.doc d), acc, [], some e⟩
              | .ok _ => ⟨some (.doc d), acc, [("invoices", d)], none⟩
            else ⟨some (.doc d), acc, [], none⟩
        else if cls.classification = ContentTypeTaxInvoice then
          -- lines 156-166: append the page to the accumulation lists
          let acc1 : AccState := ⟨acc.content ++ [content], acc.urls ++ [fileUrl]⟩
          if !cls.isDocumentComplete then
            -- line 171: incomplete document, return None
            ⟨none, acc1, [], none⟩
          else
            let merged := String.intercalate pageBreakSep acc1.content
            -- lines 178-188: default to the last page URL; attempt a merge
            -- only for multiple pages, and swallow a merge failure locally
            let mergedUrl :=
              if acc1.urls.length > 1 then
                match env.mergePdfs acc1.urls with
                | .ok u => u
                | .error _ => fileUrl
              else fileUrl
            match env.extractTaxInvoice merged with
            | .error e => ⟨some (.raw result0), acc1, [], some e⟩
            | .ok d0 =>
              let d := setKey (setKey (setKey (setKey d0
                "urn" (Value.ofOptStr urn))
                "taxInvoiceId" (.str env.newId))
                "documentUrl" (Value.ofOptStr mergedUrl))
                "total_pages" (.num acc1.content.length)
              if env.hasCosmos && urn.isSome then
                match env.createDoc "tax-invoices" d with
                | .error e =>
                  -- persistence raised before the clear (lines 203-204):
                  -- the accumulation lists keep the appended page
                  ⟨some (.doc d), acc1, [], some e⟩
                | .ok _ => ⟨some (.doc d), ⟨[], []⟩, [("tax-invoices", d)], none⟩
              else ⟨some (.doc d), ⟨[], []⟩, [], none⟩
        else if cls.classification = ContentTypeGeneralLedger then
          match env.extractGL content with
          | .error e => ⟨some (.raw result0), acc, [], some e⟩
          | .ok d0 => ⟨some (.doc (setKey d0 "documentUrl" (Value.ofOptStr fileUrl))), acc, [], none⟩
        else
          ⟨some (.msg "Content type is Unknown, no extraction performed."), acc, [], none⟩

/-! ## The polling loop of `_wait_for_analysis_result` (lines 117-238) -/

/-- Failures propagating out of `_wait_for_analysis_result`: the
`Exception` raised for a terminal failure status (line 220), the
`TimeoutError` raised once the retry budget is spent (line 238, carrying
`max_retries * retry_interval` seconds), and an exception raised by
`get_analyzer_results` itself, which the `except` at line 233 logs and
re-raises. -/
inductive PollError where
  | analysisFailed (status : String)
  | timeoutErr (seconds : Nat)
  | pollRaised (msg : String)
deriving Repr, DecidableEq

/-- Default `max_retries` of `_wait_for_analysis_result` (line 97). -/
def maxRetriesDefault : Nat := 35

/-- Default `retry_interval` in seconds (line 98). -/
def retryIntervalDefault : Nat := 3

/-- Embeds the `while retry_count < max_retries` loop: `getResults i` is
the response of the i-th call to `get_analyzer_results`, `pollIdx` counts
calls already made, and `remaining` is `max_retries - retry_count`.  The
result pairs the total number of polls performed with the outcome. -/
def pollLoop (env : HandlerEnv) (getResults : Nat → Except String AnalyzerResult)
    (fileUrl : Option String) (maxRetries retryInterval : Nat) :
    Nat → AccState → Nat → Nat × Except PollError HandlerOut
  | pollIdx, _, 0 =>
    (pollIdx, .error (.timeoutErr (maxRetries * retryInterval)))
  | pollIdx, acc, remaining + 1 =>
    match getResults pollIdx with
    | .error e => (pollIdx + 1, .error (.pollRaised e))
    | .ok r =>
      if r.status = "Succeeded" then
        (pollIdx + 1, .ok (successPath env r fileUrl acc))
      else if r.status = "Failed" || r.status = "AnalyzeError" then
        (pollIdx + 1, .error (.analysisFailed r.status))
      else
        -- `Running` and unrecognized statuses both sleep, increment
        -- `retry_count` and continue (lines 221-231)
        pollLoop env getResults fileUrl maxRetries retryInterval (pollIdx + 1) acc remaining

/-- Embeds `_wait_for_analysis_result` at its call site defaults. -/
def waitForAnalysisResult (env : HandlerEnv)
    (getResults : Nat → Except String AnalyzerResult)
    (fileUrl : Option String) (acc : AccState) : Nat × Except PollError HandlerOut :=
  pollLoop env getResults fileUrl maxRetriesDefault retryIntervalDefault 0 acc maxRetriesDefault

/-! ## Natural sort (`natural_sort_key`, lines 310-324)

`re.split` with the capture group `(\d+)` decomposes a name into an
alternating sequence of (possibly empty) digit-free chunks and maximal
digit runs; each digit run becomes `(0, int(part))` and every other chunk
`(1, part)`, and Python compares the resulting lists lexicographically.
We model a key part as `Lex (Nat ⊕ List Nat)` (numbers before strings,
numbers by value, strings as their code-point lists, which Python compares
lexicographically) and a key as a `List` of parts under Mathlib's
lexicographic list order, which matches Python list comparison (a strict
prefix is smaller). -/

/-- `re.split` with the pattern capturing maximal digit runs: returns the
alternating chunks, beginning and ending with (possibly empty) digit-free
chunks. -/
def splitNum : List Char → List String
  | [] => [""]
  | c :: cs =>
    match splitNum cs with
    | [] => [""]
    | p :: rest =>
      if c.isDigit then
        if p.isEmpty then
          match rest with
          | run :: rest2 => "" :: String.mk (c :: run.toList) :: rest2
          | [] => ["", String.mk [c], ""]
        else "" :: String.mk [c] :: p :: rest
      else String.mk (c :: p.toList) :: rest

/-- Numeric value of a digit chunk, as computed by Python `int`. -/
def digitsToNat (cs : List Char) : Nat :=
  cs.foldl (fun n c => n * 10 + (c.toNat - 48)) 0

/-- Python `part.isdigit()` for the chunks produced by `splitNum`:
nonempty and all digits. -/
def isDigitChunk (s : String) : Bool :=
  !s.isEmpty && s.toList.all Char.isDigit

/-- One element of a natural-sort key: `(0, int(part))` for digit chunks,
`(1, part)` otherwise (the chunk as its code-point list). -/
def keyPartOf (s : String) : Lex (Nat ⊕ List Nat) :=
  if isDigitChunk s then toLex (Sum.inl (digitsToNat s.toList))
  else toLex (Sum.inr (s.toList.map Char.toNat))

/-- Embeds `natural_sort_key`. -/
def naturalSortKey (blobName : String) : List (Lex (Nat ⊕ List Nat)) :=
  (splitNum blobName.toList).map keyPartOf

/-- One entry of `list_files`: the blob name and the (optional) URL. -/
structure FileInfo where
  blob_name : String
  url : Option String
deriving Repr, DecidableEq

/-- Comparison of files by natural sort key. -/
def fileLe (f g : FileInfo) : Prop :=
  naturalSortKey f.blob_name ≤ naturalSortKey g.blob_name

instance : DecidableRel fileLe := fun _ _ =>
  inferInstanceAs (Decidable (_ ≤ _))

instance : IsTotal FileInfo fileLe :=
  ⟨fun f g => le_total (naturalSortKey f.blob_name) (naturalSortKey g.blob_name)⟩

instance : IsTrans FileInfo fileLe :=
  ⟨fun _ _ _ h h' => le_trans h h'⟩

/-- Embeds `sorted(files, key=natural_sort_key)` (line 324): Python's sort
is stable, as is insertion sort with a total preorder. -/
def sortFiles (files : List FileInfo) : List FileInfo :=
  List.insertionSort fileLe files

/-! ## Folder processing (`process_documents_in_folder`, lines 300-410) -/

/-- The extension allowlist `SUPPORTED_EXTENSIONS` (line 301). -/
def SUPPORTED_EXTENSIONS : List String :=
  ["pdf", "jpg", "jpeg", "png", "tiff", "bmp"]

/-- The characters after the last dot, or `none` when no dot occurs
(Python `blob_name.rsplit('.', 1)[-1]` guarded by `'.' in blob_name`). -/
def afterLastDot : List Char → Option (List Char)
  | [] => none
  | c :: cs =>
    match afterLastDot cs with
    | some r => some r
    | none => if c = '.' then some cs else none

/-- Embeds line 341: the lowercased text after the last dot, or the empty
string when the name has no dot. -/
def fileExtensionOf (blobName : String) : String :=
  match afterLastDot blobName.toList with
  | none => ""
  | some r => String.mk (r.map Char.toLower)

/-- One entry of the returned `analysis_results` list: either the success
dictionary `blob_name, file_url, request_id, analysis_result` (lines
383-388) or an error dictionary `blob_name, file_url, error` (lines
356-360, 392-396, 399-403). -/
inductive Outcome where
  | ok (blobName : String) (fileUrl : String) (requestId : String) (res : ResultVal)
  | err (blobName : String) (fileUrl : String) (msg : String)
deriving Repr, DecidableEq

/-- The error string recorded for a poller failure: `TimeoutError` entries
are prefixed with `Timeout: ` and carry the message of line 238; other
exceptions are stringified (lines 390-403). -/
def pollErrorMsg (requestId : String) : PollError → String
  | .timeoutErr s =>
    "Timeout: Analysis did not complete within " ++ toString s ++
      " seconds for request " ++ requestId
  | .analysisFailed st => "Analysis failed with status: " ++ st
  | .pollRaised e => e

/-- The collaborators of `process_documents_in_folder`: the handler
environment, the file listing (which may raise), `analyze_invoice`
returning `initial_response.get("id")` (which may raise), and the per
request identifier poll-response sequences. -/
structure FolderEnv where
  handler : HandlerEnv
  listFiles : Except String (List FileInfo)
  analyzeInvoice : String → Except String (Option String)
  getResults : String → Nat → Except String AnalyzerResult

/-- Embeds the per-file loop (lines 332-403), threading the accumulation
lists through the files in order.  Files without a (truthy) URL and files
with an unsupported extension are skipped with no outcome entry; per-file
exceptions become error entries and processing continues. -/
def processFiles (env : FolderEnv) : List FileInfo → AccState → List Outcome
  | [], _ => []
  | f :: rest, acc =>
    match f.url with
    | none => processFiles env rest acc
    | some u =>
      if u = "" then processFiles env rest acc
      else if !(SUPPORTED_EXTENSIONS.contains (fileExtensionOf f.blob_name)) then
        processFiles env rest acc
      else
        match env.analyzeInvoice u with
        | .error e => .err f.blob_name u e :: processFiles env rest acc
        | .ok none =>
          .err f.blob_name u "No request ID returned from analyzer" :: processFiles env rest acc
        | .ok (some rid) =>
          if rid = "" then
            .err f.blob_name u "No request ID returned from analyzer" :: processFiles env rest acc
          else
            match (waitForAnalysisResult env.handler (env.getResults rid) (some u) acc).2 with
            | .error pe => .err f.blob_name u (pollErrorMsg rid pe) :: processFiles env rest acc
            | .ok hout =>
              match hout.ret with
              | none => processFiles env rest hout.acc
              | some rv => .ok f.blob_name u rid rv :: processFiles env rest hout.acc

/-- Embeds `process_documents_in_folder`: list the files (a failure there
escapes through the outer `except`, line 408-410, which re-raises), sort
them naturally, and process them starting from empty accumulation lists
(lines 328-329). -/
def processDocumentsInFolder (env : FolderEnv) : Except String (List Outcome) :=
  match env.listFiles with
  | .error e => .error e
  | .ok files => .ok (processFiles env (sortFiles files) ⟨[], []⟩)

/-! ## Reconciliation (`reconciliation_process`, lines 412-515)

Similarity scores are exact rationals: the code only compares and copies
them, so the ordering of the decimal literals is all that matters. -/

/-- One vector-search result dictionary; every field is read with `.get`,
so each may be absent. -/
structure Candidate where
  description : Option String
  taxId : Option String
  vendorId : Option Nat
  similarity_score : Option ℚ
  vendorTaxReferenceId : Option String
deriving Repr, DecidableEq

/-- The dictionary stored as `detail["matched_tax_reference"]` (lines
493-499): defaults are `""` for the description and `0` for the score. -/
structure MatchedTaxReference where
  description : String
  taxId : Option String
  vendorId : Option Nat
  similarity_score : ℚ
  vendorTaxReferenceId : Option String
deriving Repr, DecidableEq

/-- One element of a tax invoice's `taxInvoiceDetail` list: the item name
(`.get("itemName", "")`) and the match recorded on it, if any. -/
structure TaxInvoiceDetail where
  itemName : String
  matched_tax_reference : Option MatchedTaxReference
deriving Repr, DecidableEq

/-- A tax-invoice document as used here: its `taxInvoiceDetail` list. -/
structure TaxInvoiceDoc where
  details : List TaxInvoiceDetail
deriving Repr, DecidableEq

/-- A GL-transaction document as used here: its `vendorId`, if present. -/
structure GLTransactionDoc where
  vendorId : Option Nat
deriving Repr, DecidableEq

/-- Lines 459-463: the set of truthy `vendorId` values among the URN's GL
transactions.  Python iterates a hash set in unspecified order; we keep
the last occurrence order of `List.dedup`, which no proved statement
depends on. -/
def vendorIdsOf (gls : List GLTransactionDoc) : List Nat :=
  ((gls.filterMap GLTransactionDoc.vendorId).filter (fun v => v ≠ 0)).dedup

/-- The sort key of line 481: `x.get("similarity_score", 1.0)`. -/
def sortScoreKey (c : Candidate) : ℚ :=
  c.similarity_score.getD 1

/-- Candidate comparison by sort key. -/
def candLe (c d : Candidate) : Prop :=
  sortScoreKey c ≤ sortScoreKey d

instance : DecidableRel candLe := fun _ _ =>
  inferInstanceAs (Decidable (_ ≤ _))

instance : IsTotal Candidate candLe :=
  ⟨fun c d => le_total (sortScoreKey c) (sortScoreKey d)⟩

instance : IsTrans Candidate candLe :=
  ⟨fun _ _ _ h h' => le_trans h h'⟩

/-- Embeds `best_matches.sort(key=...)` (line 481): Python's stable sort,
modelled by stable insertion sort. -/
def sortMatches (l : List Candidate) : List Candidate :=
  List.insertionSort candLe l

/-- The collaborators of `reconciliation_process`: the three
`query_documents` calls, the optional embedding repository, and
`vector_search` for a given embedding and vendor identifier (`top_k = 3`
is applied inside the collaborator).  Vector search returns candidates in
ascending distance order per the interface; only the merged sort below is
the code's own. -/
structure ReconEnv where
  hasEmbedding : Bool
  queryTaxInvoices : Except String (List TaxInvoiceDoc)
  queryGLTransactions : Except String (List GLTransactionDoc)
  queryVendorRefs : Except String (List Candidate)
  embed : String → Except String (List ℚ)
  vectorSearch : List ℚ → Nat → Except String (List Candidate)

/-- Lines 466-478: run the per-vendor searches in order, extending
`best_matches`; any raise aborts the remaining searches of this item (the
raise is caught by the per-item handler in `matchDetail`). -/
def searchVendors (env : ReconEnv) (emb : List ℚ) : List Nat → Except String (List Candidate)
  | [] => .ok []
  | v :: vs =>
    match env.vectorSearch emb v with
    | .error e => .error e
    | .ok res =>
      match searchVendors env emb vs with
      | .error e => .error e
      | .ok more => .ok (res ++ more)

/-- Embeds the per-detail body of the loop (lines 443-506): empty item
names are skipped, a missing embedding repository skips the search, any
per-item raise (embedding or search) is caught at line 503 leaving the
detail unchanged, and otherwise the head of the sorted merged candidate
list, when nonempty, is recorded as `matched_tax_reference`. -/
def matchDetail (env : ReconEnv) (vendorIds : List Nat) (d : TaxInvoiceDetail) :
    TaxInvoiceDetail :=
  if d.itemName = "" then d
  else if !env.hasEmbedding then d
  else
    match env.embed d.itemName with
    | .error _ => d
    | .ok emb =>
      match searchVendors env emb vendorIds with
      | .error _ => d
      | .ok best =>
        match sortMatches best with
        | [] => d
        | top :: _ =>
          ⟨d.itemName,
            some ⟨top.description.getD "", top.taxId, top.vendorId,
              top.similarity_score.getD 0, top.vendorTaxReferenceId⟩⟩

/-- Embeds `reconciliation_process`: the three queries (a raise there
escapes through the outer `except`, lines 513-515, which re-raises; the
vendor-tax-reference fetch of line 433 is never used afterwards), then the
nested per-invoice, per-detail matching loop.  The returned documents are
the in-memory tax invoices after mutation. -/
def reconciliationProcess (env : ReconEnv) : Except String (List TaxInvoiceDoc) :=
  match env.queryTaxInvoices with
  | .error e => .error e
  | .ok tis =>
    match env.queryGLTransactions with
    | .error e => .error e
    | .ok gls =>
      match env.queryVendorRefs with
      | .error e => .error e
      | .ok _ =>
        let vids := vendorIdsOf gls
        .ok (tis.map (fun ti => ⟨ti.details.map (matchDetail env vids)⟩))

/-! ## Concrete collaborator environments used as test inputs -/

/-- A handler environment whose document store rejects every create call;
extraction classifies everything as an Invoice. -/
def envPersistFailH : HandlerEnv :=
  ⟨true, true,
    fun _ => .ok ⟨ContentTypeInvoice, true⟩,
    fun _ => .ok [("totalAmount", .num 500)],
    fun _ => .ok [], fun _ => .ok [],
    fun _ _ => .error "cosmos create failed",
    fun _ => .ok none,
    "uuid-1"⟩

/-- A one-file batch processed against `envPersistFailH`; the first poll
already reports success with a page containing a ten-digit URN. -/
def envPersistFail : FolderEnv :=
  ⟨envPersistFailH,
    .ok [⟨"pdf_1.pdf", some "u1"⟩],
    fun _ => .ok (some "req-1"),
    fun _ _ => .ok ⟨"Succeeded", some "5550001111 invoice page"⟩⟩

/-- A handler environment classifying the page as a complete TaxInvoice
whose persistence call raises. -/
def envTaxPersistFailH : HandlerEnv :=
  ⟨true, true,
    fun _ => .ok ⟨ContentTypeTaxInvoice, true⟩,
    fun _ => .ok [],
    fun _ => .ok [("vatTotal", .num 11)],
    fun _ => .ok [],
    fun _ _ => .error "cosmos create failed",
    fun _ => .ok none,
    "uuid-2"⟩

/-- The analyzer response fed to `envTaxPersistFailH`. -/
def taxPageResult : AnalyzerResult :=
  ⟨"Succeeded", some "6660002222 tax invoice page"⟩

/-- A handler environment classifying the page as GeneralLedger. -/
def envGLH : HandlerEnv :=
  ⟨true, true,
    fun _ => .ok ⟨ContentTypeGeneralLedger, true⟩,
    fun _ => .ok [], fun _ => .ok [],
    fun _ => .ok [("glRows", .num 2)],
    fun _ _ => .ok (),
    fun _ => .ok none,
    "uuid-3"⟩

/-- The analyzer response fed to `envGLH`: its page text carries a
ten-digit URN, so the correlation reference is known. -/
def glPageResult : AnalyzerResult :=
  ⟨"Succeeded", some "7770003333 general ledger page"⟩

/-- A handler environment on the Invoice path with a working document
store, fed a page whose only long digit run touches a letter. -/
def envUrnMissH : HandlerEnv :=
  ⟨true, true,
    fun _ => .ok ⟨ContentTypeInvoice, true⟩,
    fun _ => .ok [("totalAmount", .num 7)],
    fun _ => .ok [], fun _ => .ok [],
    fun _ _ => .ok (),
    fun _ => .ok none,
    "uuid-4"⟩

/-- The analyzer response fed to `envUrnMissH`: the digit run
`1234567890` is preceded by the word character `a`. -/
def urnMissResult : AnalyzerResult :=
  ⟨"Succeeded", some "a1234567890"⟩

/-- A one-file batch that always reports `Running`. -/
def envTimeout : FolderEnv :=
  ⟨envPersistFailH,
    .ok [⟨"pdf_1.pdf", some "u1"⟩],
    fun _ => .ok (some "req-t"),
    fun _ _ => .ok ⟨"Running", none⟩⟩

/-- Vendor 1's nearest catalog entry, at distance 0.31. -/
def cand31 : Candidate := ⟨some "desc31", some "t31", some 1, some 0.31, some "r31"⟩

/-- Vendor 2's nearest catalog entry, at distance 0.12. -/
def cand12 : Candidate := ⟨some "desc12", some "t12", some 2, some 0.12, some "r12"⟩

/-- Vendor 3's nearest catalog entry, at distance 0.45. -/
def cand45 : Candidate := ⟨some "desc45", some "t45", some 3, some 0.45, some "r45"⟩

/-- Three single-candidate vendor catalogs with distances 0.31, 0.12 and
0.45 for vendors 1, 2 and 3. -/
def envThreeVendors : ReconEnv :=
  ⟨true,
    .ok [⟨[⟨"item A", none⟩]⟩],
    .ok [⟨some 1⟩, ⟨some 2⟩, ⟨some 3⟩],
    .ok [],
    fun _ => .ok [1],
    fun _ v =>
      if v = 1 then .ok [cand31]
      else if v = 2 then .ok [cand12]
      else .ok [cand45]⟩

/-- A one-file batch whose analyzer submission raises. -/
def envSubmitFail : FolderEnv :=
  ⟨envPersistFailH,
    .ok [⟨"pdf_9.pdf", some "u9"⟩],
    fun _ => .error "submission refused",
    fun _ _ => .ok ⟨"Running", none⟩⟩

/-- A reconciliation environment whose URN has no GL transactions. -/
def envNoVendors : ReconEnv :=
  ⟨true,
    .ok [⟨[⟨"item A", none⟩, ⟨"item B", none⟩]⟩],
    .ok [],
    .ok [],
    fun _ => .error "embedding service down",
    fun _ _ => .error "search down"⟩

/-- A handler environment for multi-page tax invoices: extraction succeeds
on any text, persistence is not configured, and merging raises. -/
def envMergeFailH : HandlerEnv :=
  ⟨true, false,
    fun _ => .ok ⟨ContentTypeTaxInvoice, true⟩,
    fun _ => .ok [],
    fun _ => .ok [("vatTotal", .num 3)],
    fun _ => .ok [],
    fun _ _ => .ok (),
    fun _ => .error "merge failed",
    "uuid-5"⟩

/-- A handler environment for multi-page tax invoices whose classifier
marks every page complete except the page `"C"`, with merging working and
persistence not configured. -/
def envFlushH : HandlerEnv :=
  ⟨true, false,
    fun t => .ok ⟨ContentTypeTaxInvoice, t != "C"⟩,
    fun _ => .ok [],
    fun _ => .ok [("vatTotal", .num 3)],
    fun _ => .ok [],
    fun _ _ => .ok (),
    fun _ => .ok (some "merged-url"),
    "uuid-6"⟩

/-- A handler environment classifying `"inv page"` as Invoice, `"tax
page"` as TaxInvoice and everything else as GeneralLedger, with no
document store configured. -/
def envTagH : HandlerEnv :=
  ⟨true, false,
    fun t =>
      if t = "inv page" then .ok ⟨ContentTypeInvoice, true⟩
      else if t = "tax page" then .ok ⟨ContentTypeTaxInvoice, true⟩
      else .ok ⟨ContentTypeGeneralLedger, true⟩,
    fun _ => .ok [("amount", .num 1)],
    fun _ => .ok [("vat", .num 2)],
    fun _ => .ok [("gl", .num 3)],
    fun _ _ => .ok (),
    fun _ => .ok none,
    "uuid-7"⟩

/-- A handler environment classifying every page as a complete TaxInvoice
whose tax-invoice extraction call raises, with a working document store. -/
def envTaxExtractFailH : HandlerEnv :=
  ⟨true, true,
    fun _ => .ok ⟨ContentTypeTaxInvoice, true⟩,
    fun _ => .ok [],
    fun _ => .error "llm extraction failed",
    fun _ => .ok [],
    fun _ _ => .ok (),
    fun _ => .ok none,
    "uuid-8"⟩

/-- A handler environment with a working document store that classifies
the two invoice page texts as Invoice and every other page as a complete
TaxInvoice. -/
def envTagCosmosH : HandlerEnv :=
  ⟨true, true,
    fun t =>
      if t = "inv page" || t = "9990001111 inv" then .ok ⟨ContentTypeInvoice, true⟩
      else .ok ⟨ContentTypeTaxInvoice, true⟩,
    fun _ => .ok [("amount", .num 1)],
    fun _ => .ok [("vat", .num 2)],
    fun _ => .ok [],
    fun _ _ => .ok (),
    fun _ => .ok none,
    "uuid-9"⟩

/-! ## Helper lemmas -/

theorem getKey_setKey_same (d : Dict) (k : String) (v : Value) :
    getKey (setKey d k v) k = some v := by
  induction d with
  | nil => simp [setKey, getKey]
  | cons kv rest ih =>
    obtain ⟨k', v'⟩ := kv
    by_cases h : k' = k
    · simp [setKey, getKey, h]
    · simp [setKey, getKey, h, ih]

theorem getKey_setKey_other (d : Dict) (k k' : String) (v : Value) (h : k' ≠ k) :
    getKey (setKey d k v) k' = getKey d k' := by
  induction d with
  | nil => simp [setKey, getKey, h, Ne.symm h]
  | cons kv rest ih =>
    obtain ⟨k0, v0⟩ := kv
    by_cases h0 : k0 = k
    · subst h0
      have hne : ¬(k0 = k') := fun hh => h hh.symm
      simp [setKey, getKey, h, hne]
    · by_cases h1 : k0 = k'
      · subst h1
        simp [setKey, getKey, h0, h, Ne.symm h]
      · simp [setKey, getKey, h0, h1, ih]

theorem intercalate_pair (s a b : String) :
    String.intercalate s [a, b] = a ++ s ++ b := rfl

theorem intercalate_single (s a : String) :
    String.intercalate s [a] = a := rfl

/-! ## Claims -/

/-- C7: flushing a completed tax-invoice unit with accumulated pages
`[a, b]` hands the extraction exactly the text `a ++ pageBreakSep ++ b`
(the page texts joined by the page-break separator) and clears both
accumulation lists; a unit whose single page is marked complete flushes to
that page's text unchanged; and a page added after a successful flush
starts a fresh unit holding only itself. -/
theorem flush_merges_pages_and_clears_state
    (env : HandlerEnv) (a b c : String) (u1 u2 u3 um : Option String)
    (r1 r2 r3 : AnalyzerResult) (d1 d2 : Dict)
    (hLLM : env.hasLLM = true)
    (hcos : env.hasCosmos = false)
    (hm2 : r2.markdown = some b)
    (hc2 : env.classify b = .ok ⟨ContentTypeTaxInvoice, true⟩)
    (hmerge : env.mergePdfs [u1, u2] = .ok um)
    (he2 : env.extractTaxInvoice (a ++ pageBreakSep ++ b) = .ok d2)
    (hm1 : r1.markdown = some a)
    (hc1 : env.classify a = .ok ⟨ContentTypeTaxInvoice, true⟩)
    (he1 : env.extractTaxInvoice a = .ok d1)
    (hm3 : r3.markdown = some c)
    (hc3 : env.classify c = .ok ⟨ContentTypeTaxInvoice, false⟩) :
    String.intercalate pageBreakSep [a, b] = a ++ pageBreakSep ++ b
    ∧ successPath env r2 u2 ⟨[a], [u1]⟩ =
        ⟨some (.doc (setKey (setKey (setKey (setKey d2
            "urn" (Value.ofOptStr (extractUrnFromContent b)))
            "taxInvoiceId" (.str env.newId))
            "documentUrl" (Value.ofOptStr um))
            "total_pages" (.num 2))),
          ⟨[], []⟩, [], none⟩
    ∧ String.intercalate pageBreakSep [a] = a
    ∧ successPath env r1 u1 ⟨[], []⟩ =
        ⟨some (.doc (setKey (setKey (setKey (setKey d1
            "urn" (Value.ofOptStr (extractUrnFromContent a)))
            "taxInvoiceId" (.str env.newId))
            "documentUrl" (Value.ofOptStr u1))
            "total_pages" (.num 1))),
          ⟨[], []⟩, [], none⟩
    ∧ successPath env r3 u3 ⟨[], []⟩ = ⟨none, ⟨[c], [u3]⟩, [], none⟩ := by
  refine ⟨rfl, ?_, rfl, ?_, ?_⟩
  · simp +decide [successPath, hLLM, hcos, hm2, hc2, hmerge, he2,
      ContentTypeInvoice, ContentTypeTaxInvoice, intercalate_pair]
  · simp +decide [successPath, hLLM, hcos, hm1, hc1, he1,
      ContentTypeInvoice, ContentTypeTaxInvoice, intercalate_single]
  · simp +decide [successPath, hLLM, hm3, hc3,
      ContentTypeInvoice, ContentTypeTaxInvoice]

/-- Witness for C7 at pages `"A"`, `"B"`, `"C"` against `envFlushH`. -/
theorem flush_merges_pages_and_clears_state_witness :
    String.intercalate pageBreakSep ["A", "B"] = "A" ++ pageBreakSep ++ "B"
    ∧ successPath envFlushH ⟨"Succeeded", some "B"⟩ (some "uB") ⟨["A"], [some "uA"]⟩ =
        ⟨some (.doc (setKey (setKey (setKey (setKey [("vatTotal", .num 3)]
            "urn" (Value.ofOptStr (extractUrnFromContent "B")))
            "taxInvoiceId" (.str envFlushH.newId))
            "documentUrl" (Value.ofOptStr (some "merged-url")))
            "total_pages" (.num 2))),
          ⟨[], []⟩, [], none⟩
    ∧ String.intercalate pageBreakSep ["A"] = "A"
    ∧ successPath envFlushH ⟨"Succeeded", some "A"⟩ (some "uA") ⟨[], []⟩ =
        ⟨some (.doc (setKey (setKey (setKey (setKey [("vatTotal", .num 3)]
            "urn" (Value.ofOptStr (extractUrnFromContent "A")))
            "taxInvoiceId" (.str envFlushH.newId))
            "documentUrl" (Value.ofOptStr (some "uA")))
            "total_pages" (.num 1))),
          ⟨[], []⟩, [], none⟩
    ∧ successPath envFlushH ⟨"Succeeded", some "C"⟩ (some "uC") ⟨[], []⟩ =
        ⟨none, ⟨["C"], [some "uC"]⟩, [], none⟩ :=
  flush_merges_pages_and_clears_state envFlushH "A" "B" "C"
    (some "uA") (some "uB") (some "uC") (some "merged-url")
    ⟨"Succeeded", some "A"⟩ ⟨"Succeeded", some "B"⟩ ⟨"Succeeded", some "C"⟩
    [("vatTotal", .num 3)] [("vatTotal", .num 3)]
    rfl rfl rfl rfl rfl rfl rfl rfl rfl rfl rfl

/-- C9: a completed tax-invoice unit with exactly one accumulated source
file uses that file's reference unchanged — the conclusion holds with
`env.mergePdfs` unconstrained, so no merge is consulted — and when the
unit has more than one source file and the merge raises, the record's
`documentUrl` falls back to the last page's reference (the current file
URL) and extraction still proceeds to a returned record with no recorded
error. -/
theorem merge_single_source_and_failure_fallback
    (env : HandlerEnv) (a b u1 u2 e : String)
    (r1 r2 : AnalyzerResult) (d1 d2 : Dict)
    (hLLM : env.hasLLM = true) (hcos : env.hasCosmos = false)
    (hm1 : r1.markdown = some a)
    (hc1 : env.classify a = .ok ⟨ContentTypeTaxInvoice, true⟩)
    (he1 : env.extractTaxInvoice a = .ok d1)
    (hm2 : r2.markdown = some b)
    (hc2 : env.classify b = .ok ⟨ContentTypeTaxInvoice, true⟩)
    (hmerge : env.mergePdfs [some u1, some u2] = .error e)
    (he2 : env.extractTaxInvoice (a ++ pageBreakSep ++ b) = .ok d2) :
    successPath env r1 (some u1) ⟨[], []⟩ =
      ⟨some (.doc (setKey (setKey (setKey (setKey d1
          "urn" (Value.ofOptStr (extractUrnFromContent a)))
          "taxInvoiceId" (.str env.newId))
          "documentUrl" (.str u1))
          "total_pages" (.num 1))),
        ⟨[], []⟩, [], none⟩
    ∧ successPath env r2 (some u2) ⟨[a], [some u1]⟩ =
      ⟨some (.doc (setKey (setKey (setKey (setKey d2
          "urn" (Value.ofOptStr (extractUrnFromContent b)))
          "taxInvoiceId" (.str env.newId))
          "documentUrl" (.str u2))
          "total_pages" (.num 2))),
        ⟨[], []⟩, [], none⟩ := by
  constructor
  · simp +decide [successPath, hLLM, hcos, hm1, hc1, he1, Value.ofOptStr,
      ContentTypeInvoice, ContentTypeTaxInvoice, intercalate_single]
  · simp +decide [successPath, hLLM, hcos, hm2, hc2, hmerge, he2, Value.ofOptStr,
      ContentTypeInvoice, ContentTypeTaxInvoice, intercalate_pair]

/-- Witness for C9 against `envMergeFailH` with pages `"P1"`, `"P2"`. -/
theorem merge_single_source_and_failure_fallback_witness :
    successPath envMergeFailH ⟨"Succeeded", some "P1"⟩ (some "v1") ⟨[], []⟩ =
      ⟨some (.doc (setKey (setKey (setKey (setKey [("vatTotal", .num 3)]
          "urn" (Value.ofOptStr (extractUrnFromContent "P1")))
          "taxInvoiceId" (.str envMergeFailH.newId))
          "documentUrl" (.str "v1"))
          "total_pages" (.num 1))),
        ⟨[], []⟩, [], none⟩
    ∧ successPath envMergeFailH ⟨"Succeeded", some "P2"⟩ (some "v2") ⟨["P1"], [some "v1"]⟩ =
      ⟨some (.doc (setKey (setKey (setKey (setKey [("vatTotal", .num 3)]
          "urn" (Value.ofOptStr (extractUrnFromContent "P2")))
          "taxInvoiceId" (.str envMergeFailH.newId))
          "documentUrl" (.str "v2"))
          "total_pages" (.num 2))),
        ⟨[], []⟩, [], none⟩ :=
  merge_single_source_and_failure_fallback envMergeFailH "P1" "P2" "v1" "v2" "merge failed"
    ⟨"Succeeded", some "P1"⟩ ⟨"Succeeded", some "P2"⟩
    [("vatTotal", .num 3)] [("vatTotal", .num 3)]
    rfl rfl rfl rfl rfl rfl rfl rfl rfl

theorem pollLoop_all_nonterminal (env : HandlerEnv)
    (g : Nat → Except String AnalyzerResult) (u : Option String) (mr ri : Nat)
    (h : ∀ i, ∃ r, g i = .ok r ∧ r.status ≠ "Succeeded" ∧ r.status ≠ "Failed"
      ∧ r.status ≠ "AnalyzeError") :
    ∀ k i acc, pollLoop env g u mr ri i acc k = (i + k, .error (.timeoutErr (mr * ri))) := by
  intro k
  induction k with
  | zero => intro i acc; simp [pollLoop]
  | succ n ih =>
    intro i acc
    obtain ⟨r, hg, h1, h2, h3⟩ := h i
    have hrw : i + (n + 1) = (i + 1) + n := by omega
    rw [hrw]
    simp only [pollLoop, hg]
    rw [if_neg (by simp [h1]), if_neg (by simp [h2, h3])]
    exact ih (i + 1) acc

/-- C4: when every poll response is non-terminal (`Running` or
unrecognized), the poller makes exactly `maxRetriesDefault = 35` calls,
counting each non-success response toward the budget, and then fails with
a timeout carrying `maxRetriesDefault * retryIntervalDefault = 105`
seconds; the folder processor turns that timeout into an error outcome for
the file and continues with the remaining files. -/
theorem poller_timeout_and_batch_continues
    (env : FolderEnv) (f : FileInfo) (rest : List FileInfo) (acc : AccState)
    (u rid : String)
    (hurl : f.url = some u) (hune : u ≠ "")
    (hext : SUPPORTED_EXTENSIONS.contains (fileExtensionOf f.blob_name) = true)
    (hsub : env.analyzeInvoice u = .ok (some rid)) (hrid : rid ≠ "")
    (hg : ∀ i, ∃ r, env.getResults rid i = .ok r ∧ r.status ≠ "Succeeded"
      ∧ r.status ≠ "Failed" ∧ r.status ≠ "AnalyzeError") :
    waitForAnalysisResult env.handler (env.getResults rid) (some u) acc =
      (maxRetriesDefault, .error (.timeoutErr (maxRetriesDefault * retryIntervalDefault)))
    ∧ maxRetriesDefault = 35
    ∧ maxRetriesDefault * retryIntervalDefault = 105
    ∧ processFiles env (f :: rest) acc =
        .err f.blob_name u
          (pollErrorMsg rid (.timeoutErr (maxRetriesDefault * retryIntervalDefault)))
          :: processFiles env rest acc := by
  have hw : waitForAnalysisResult env.handler (env.getResults rid) (some u) acc =
      (maxRetriesDefault, .error (.timeoutErr (maxRetriesDefault * retryIntervalDefault))) := by
    have := pollLoop_all_nonterminal env.handler (env.getResults rid) (some u)
      maxRetriesDefault retryIntervalDefault hg maxRetriesDefault 0 acc
    simpa [waitForAnalysisResult] using this
  have hmem : fileExtensionOf f.blob_name ∈ SUPPORTED_EXTENSIONS := by
    simpa using hext
  refine ⟨hw, rfl, rfl, ?_⟩
  simp [processFiles, hurl, hune, hext, hmem, hsub, hrid, hw]

/-- Witness for C4 against the always-`Running` batch `envTimeout`. -/
theorem poller_timeout_and_batch_continues_witness :
    waitForAnalysisResult envTimeout.handler (envTimeout.getResults "req-t")
        (some "u1") ⟨[], []⟩ =
      (maxRetriesDefault, .error (.timeoutErr (maxRetriesDefault * retryIntervalDefault)))
    ∧ maxRetriesDefault = 35
    ∧ maxRetriesDefault * retryIntervalDefault = 105
    ∧ processFiles envTimeout [⟨"pdf_1.pdf", some "u1"⟩, ⟨"pdf_2.pdf", none⟩] ⟨[], []⟩ =
        .err "pdf_1.pdf" "u1"
          (pollErrorMsg "req-t" (.timeoutErr (maxRetriesDefault * retryIntervalDefault)))
          :: processFiles envTimeout [⟨"pdf_2.pdf", none⟩] ⟨[], []⟩ :=
  poller_timeout_and_batch_continues envTimeout ⟨"pdf_1.pdf", some "u1"⟩
    [⟨"pdf_2.pdf", none⟩] ⟨[], []⟩ "u1" "req-t"
    rfl (by decide) (by decide) rfl (by decide)
    (fun _ => ⟨⟨"Running", none⟩, rfl, by decide, by decide, by decide⟩)

/-- C5: for a line item with a non-empty description, the recorded match is
built from the head of the merged per-vendor candidate lists sorted
ascending by similarity score (missing scores defaulting to 1.0); that
head is one of the merged candidates and its score is minimal over the
union, and the recorded fields are the candidate's description, taxId,
vendorId, similarity score and reference identifier. -/
theorem best_match_is_minimum_over_merged_candidates
    (env : ReconEnv) (vids : List Nat) (d : TaxInvoiceDetail) (emb : List ℚ)
    (best tl : List Candidate) (top : Candidate)
    (hname : d.itemName ≠ "")
    (hemb : env.hasEmbedding = true)
    (he : env.embed d.itemName = .ok emb)
    (hs : searchVendors env emb vids = .ok best)
    (hsort : sortMatches best = top :: tl) :
    matchDetail env vids d =
      ⟨d.itemName, some ⟨top.description.getD "", top.taxId, top.vendorId,
        top.similarity_score.getD 0, top.vendorTaxReferenceId⟩⟩
    ∧ top ∈ best
    ∧ ∀ c ∈ best, sortScoreKey top ≤ sortScoreKey c := by
  have hp : List.Perm (sortMatches best) best := List.perm_insertionSort candLe best
  have hsorted : List.Sorted candLe (sortMatches best) :=
    List.sorted_insertionSort candLe best
  rw [hsort] at hsorted
  refine ⟨?_, ?_, ?_⟩
  · simp [matchDetail, hname, hemb, he, hs, hsort]
  · exact hp.subset (by rw [hsort]; exact List.mem_cons_self top tl)
  · intro c hc
    have hc' : c ∈ top :: tl := by
      rw [← hsort]; exact hp.symm.subset hc
    rcases List.mem_cons.mp hc' with h | h
    · subst h; exact le_refl _
    · exact (List.sorted_cons.mp hsorted).1 c h

/-- Witness for C5: candidate distances 0.31, 0.12, 0.45 from three
vendors; the accepted match is the candidate at distance 0.12. -/
theorem best_match_is_minimum_over_merged_candidates_witness :
    matchDetail envThreeVendors [1, 2, 3] ⟨"item A", none⟩ =
      ⟨"item A", some ⟨"desc12", some "t12", some 2, 0.12, some "r12"⟩⟩
    ∧ cand12 ∈ [cand31, cand12, cand45]
    ∧ ∀ c ∈ [cand31, cand12, cand45], sortScoreKey cand12 ≤ sortScoreKey c :=
  best_match_is_minimum_over_merged_candidates envThreeVendors [1, 2, 3]
    ⟨"item A", none⟩ [1] [cand31, cand12, cand45] [cand31, cand45] cand12
    (by decide) rfl rfl rfl
    (by norm_num [sortMatches, List.insertionSort, List.orderedInsert, candLe,
      sortScoreKey, cand31, cand12, cand45])

/-- C6: a URN with zero GL transactions reconciles with every line item
left unmatched and no exception raised, and a per-item embedding failure,
per-item search failure, or empty candidate set each leave that item's
detail unchanged. -/
theorem no_vendor_or_failed_item_leaves_unmatched
    (env : ReconEnv) (tis : List TaxInvoiceDoc) (refs : List Candidate)
    (hti : env.queryTaxInvoices = .ok tis)
    (hgl : env.queryGLTransactions = .ok [])
    (hvr : env.queryVendorRefs = .ok refs) :
    reconciliationProcess env = .ok tis
    ∧ (∀ vids d e, env.embed d.itemName = .error e → matchDetail env vids d = d)
    ∧ (∀ vids d emb e, env.embed d.itemName = .ok emb →
        searchVendors env emb vids = .error e → matchDetail env vids d = d)
    ∧ (∀ vids d emb, env.embed d.itemName = .ok emb →
        searchVendors env emb vids = .ok [] → matchDetail env vids d = d) := by
  have hnil : ∀ d, matchDetail env [] d = d := by
    intro d
    by_cases h1 : d.itemName = ""
    · simp [matchDetail, h1]
    · by_cases h2 : env.hasEmbedding
      · cases he : env.embed d.itemName with
        | error e => simp [matchDetail, h1, h2, he]
        | ok emb =>
          simp [matchDetail, h1, h2, he, searchVendors, sortMatches,
            List.insertionSort]
      · simp [matchDetail, h1, h2]
  refine ⟨?_, ?_, ?_, ?_⟩
  · have hmap : ∀ ti : TaxInvoiceDoc,
        TaxInvoiceDoc.mk (ti.details.map (matchDetail env [])) = ti := by
      intro ti
      have : ti.details.map (matchDetail env []) = ti.details := by
        calc ti.details.map (matchDetail env [])
            = ti.details.map id := List.map_congr_left (fun a _ => hnil a)
          _ = ti.details := List.map_id ti.details
      rw [this]
    simp only [reconciliationProcess, hti, hgl, hvr, vendorIdsOf]
    simp only [List.filterMap_nil, List.filter_nil, List.dedup_nil, hmap,
      List.map_id]
    exact congrArg Except.ok (by simp [hmap])
  · intro vids d e he
    by_cases h1 : d.itemName = ""
    · simp [matchDetail, h1]
    · by_cases h2 : env.hasEmbedding
      · simp [matchDetail, h1, h2, he]
      · simp [matchDetail, h1, h2]
  · intro vids d emb e he hs
    by_cases h1 : d.itemName = ""
    · simp [matchDetail, h1]
    · by_cases h2 : env.hasEmbedding
      · simp [matchDetail, h1, h2, he, hs]
      · simp [matchDetail, h1, h2]
  · intro vids d emb he hs
    by_cases h1 : d.itemName = ""
    · simp [matchDetail, h1]
    · by_cases h2 : env.hasEmbedding
      · simp [matchDetail, h1, h2, he, hs, sortMatches, List.insertionSort]
      · simp [matchDetail, h1, h2]

/-- Witness for C6 against `envNoVendors`: a URN with zero GL transactions
and a raising embedding service. -/
theorem no_vendor_or_failed_item_leaves_unmatched_witness :
    reconciliationProcess envNoVendors = .ok [⟨[⟨"item A", none⟩, ⟨"item B", none⟩]⟩]
    ∧ matchDetail envNoVendors [5] ⟨"x", none⟩ = ⟨"x", none⟩ := by
  have T := no_vendor_or_failed_item_leaves_unmatched envNoVendors
    [⟨[⟨"item A", none⟩, ⟨"item B", none⟩]⟩] [] rfl rfl rfl
  exact ⟨T.1, T.2.1 [5] ⟨"x", none⟩ "embedding service down" rfl⟩

/-- C8: the folder processor's ordering is exactly the natural-key order
(the sorted list is a sorted permutation of the listing, and the files
`pdf_1, pdf_2, pdf_10` come out in that order, never lexicographically),
files with an unsupported extension are skipped silently with no outcome
entry (`notes.txt` produces none), and a file with a supported extension
and a URL is processed (here: its failing submission yields an error
entry). -/
theorem folder_natural_order_and_extension_allowlist
    (files : List FileInfo) (f : FileInfo) :
    List.Perm (sortFiles files) files
    ∧ List.Sorted fileLe (sortFiles files)
    ∧ (∀ env rest acc, SUPPORTED_EXTENSIONS.contains (fileExtensionOf f.blob_name) = false →
        processFiles env (f :: rest) acc = processFiles env rest acc)
    ∧ (∀ env rest acc u e, f.url = some u → u ≠ "" →
        SUPPORTED_EXTENSIONS.contains (fileExtensionOf f.blob_name) = true →
        env.analyzeInvoice u = .error e →
        processFiles env (f :: rest) acc = .err f.blob_name u e :: processFiles env rest acc)
    ∧ (sortFiles [⟨"pdf_1", some "a"⟩, ⟨"pdf_10", some "b"⟩, ⟨"pdf_2", some "c"⟩]).map
        FileInfo.blob_name = ["pdf_1", "pdf_2", "pdf_10"]
    ∧ (∀ env acc, processFiles env [⟨"notes.txt", some "nu"⟩] acc = []) := by
  refine ⟨List.perm_insertionSort fileLe files, List.sorted_insertionSort fileLe files,
    ?_, ?_, by decide, ?_⟩
  · intro env rest acc h
    cases hu : f.url with
    | none => simp [processFiles, hu]
    | some u =>
      by_cases hu0 : u = ""
      · simp [processFiles, hu, hu0]
      · have hnm : fileExtensionOf f.blob_name ∉ SUPPORTED_EXTENSIONS := by
          simpa using h
        simp [processFiles, hu, hu0, hnm]
  · intro env rest acc u e hurl hune hext hsubm
    have hmem : fileExtensionOf f.blob_name ∈ SUPPORTED_EXTENSIONS := by
      simpa using hext
    simp [processFiles, hurl, hune, hmem, hsubm]
  · intro env acc
    simp +decide [processFiles]

/-- Witness for C8 at the concrete batch `pdf_1, pdf_10, pdf_2` plus
`notes.txt` and a failing-submission one-file batch. -/
theorem folder_natural_order_and_extension_allowlist_witness :
    List.Perm (sortFiles [⟨"pdf_1", some "a"⟩, ⟨"pdf_10", some "b"⟩, ⟨"pdf_2", some "c"⟩])
      [⟨"pdf_1", some "a"⟩, ⟨"pdf_10", some "b"⟩, ⟨"pdf_2", some "c"⟩]
    ∧ List.Sorted fileLe
        (sortFiles [⟨"pdf_1", some "a"⟩, ⟨"pdf_10", some "b"⟩, ⟨"pdf_2", some "c"⟩])
    ∧ processFiles envSubmitFail [⟨"notes.txt", some "nu"⟩] ⟨[], []⟩ = []
    ∧ processFiles envSubmitFail [⟨"pdf_9.pdf", some "u9"⟩] ⟨[], []⟩ =
        [.err "pdf_9.pdf" "u9" "submission refused"]
    ∧ (sortFiles [⟨"pdf_1", some "a"⟩, ⟨"pdf_10", some "b"⟩, ⟨"pdf_2", some "c"⟩]).map
        FileInfo.blob_name = ["pdf_1", "pdf_2", "pdf_10"] := by
  have T := folder_natural_order_and_extension_allowlist
    [⟨"pdf_1", some "a"⟩, ⟨"pdf_10", some "b"⟩, ⟨"pdf_2", some "c"⟩]
    ⟨"pdf_9.pdf", some "u9"⟩
  refine ⟨T.1, T.2.1, T.2.2.2.2.2 envSubmitFail ⟨[], []⟩, ?_, T.2.2.2.2.1⟩
  have := T.2.2.2.1 envSubmitFail [] ⟨[], []⟩ "u9" "submission refused"
    rfl (by decide) (by decide) rfl
  simpa [processFiles] using this

/-- Counterexample for C1: in the batch `envPersistFail` the document
store rejects the create call while persisting an extracted Invoice
record, yet folder processing completes normally — it returns an `ok`
result whose single entry is a success entry carrying the extraction
dictionary — so the persistence failure is neither fatal to the batch nor
propagated to the caller. -/
theorem persistence_failure_propagates_cex :
    processDocumentsInFolder envPersistFail =
      .ok [.ok "pdf_1.pdf" "u1" "req-1"
        (.doc [("totalAmount", .num 500), ("urn", .str "5550001111"),
          ("invoiceId", .str "uuid-1"), ("documentUrl", .str "u1")])] := rfl

/-- C1 (amended): a document-store create failure while persisting an
extracted Invoice record is caught by the per-file classification handler
(line 212): it is recorded as a handled error, nothing is persisted, the
extraction result is still returned and becomes that file's success
outcome, and the batch continues with the remaining files; only a failure
of the batch's file listing propagates to the caller. -/
theorem persistence_failure_logged_and_batch_continues
    (env : FolderEnv) (f : FileInfo) (rest : List FileInfo) (acc : AccState)
    (u rid content urnv e : String) (d0 : Dict) (r0 : AnalyzerResult)
    (hurl : f.url = some u) (hune : u ≠ "")
    (hext : SUPPORTED_EXTENSIONS.contains (fileExtensionOf f.blob_name) = true)
    (hsub : env.analyzeInvoice u = .ok (some rid)) (hrid : rid ≠ "")
    (hg0 : env.getResults rid 0 = .ok r0)
    (hst : r0.status = "Succeeded")
    (hmk : r0.markdown = some content)
    (hLLM : env.handler.hasLLM = true)
    (hcls : env.handler.classify content = .ok ⟨ContentTypeInvoice, true⟩)
    (hx : env.handler.extractInvoice content = .ok d0)
    (hcos : env.handler.hasCosmos = true)
    (hurn : extractUrnFromContent content = some urnv)
    (hcreate : env.handler.createDoc "invoices"
        (setKey (setKey (setKey d0 "urn" (.str urnv))
          "invoiceId" (.str env.handler.newId))
          "documentUrl" (.str u)) = .error e) :
    successPath env.handler r0 (some u) acc =
      ⟨some (.doc (setKey (setKey (setKey d0 "urn" (.str urnv))
          "invoiceId" (.str env.handler.newId)) "documentUrl" (.str u))),
        acc, [], some e⟩
    ∧ processFiles env (f :: rest) acc =
        .ok f.blob_name u rid (.doc (setKey (setKey (setKey d0 "urn" (.str urnv))
            "invoiceId" (.str env.handler.newId)) "documentUrl" (.str u)))
          :: processFiles env rest acc
    ∧ (∀ e2, env.listFiles = .error e2 → processDocumentsInFolder env = .error e2) := by
  have hsp : successPath env.handler r0 (some u) acc =
      ⟨some (.doc (setKey (setKey (setKey d0 "urn" (.str urnv))
          "invoiceId" (.str env.handler.newId)) "documentUrl" (.str u))),
        acc, [], some e⟩ := by
    simp +decide [successPath, hLLM, hmk, hcls, hx, hcos, hurn, hcreate,
      Value.ofOptStr, ContentTypeInvoice]
  have hw : waitForAnalysisResult env.handler (env.getResults rid) (some u) acc =
      (1, .ok (successPath env.handler r0 (some u) acc)) := by
    simp only [waitForAnalysisResult, maxRetriesDefault, retryIntervalDefault]
    rw [show (35 : Nat) = 34 + 1 from rfl]
    simp [pollLoop, hg0, hst]
  have hmem : fileExtensionOf f.blob_name ∈ SUPPORTED_EXTENSIONS := by
    simpa using hext
  refine ⟨hsp, ?_, ?_⟩
  · simp [processFiles, hurl, hune, hmem, hsub, hrid, hw, hsp]
  · intro e2 h
    simp [processDocumentsInFolder, h]

/-- Witness for the amended C1 at the concrete batch `envPersistFail`. -/
theorem persistence_failure_logged_and_batch_continues_witness :
    successPath envPersistFail.handler ⟨"Succeeded", some "5550001111 invoice page"⟩
        (some "u1") ⟨[], []⟩ =
      ⟨some (.doc (setKey (setKey (setKey [("totalAmount", .num 500)]
          "urn" (.str "5550001111"))
          "invoiceId" (.str envPersistFail.handler.newId)) "documentUrl" (.str "u1"))),
        ⟨[], []⟩, [], some "cosmos create failed"⟩
    ∧ processFiles envPersistFail [⟨"pdf_1.pdf", some "u1"⟩] ⟨[], []⟩ =
        .ok "pdf_1.pdf" "u1" "req-1"
          (.doc (setKey (setKey (setKey [("totalAmount", .num 500)]
            "urn" (.str "5550001111"))
            "invoiceId" (.str envPersistFail.handler.newId)) "documentUrl" (.str "u1")))
          :: processFiles envPersistFail [] ⟨[], []⟩
    ∧ (∀ e2, envPersistFail.listFiles = .error e2 →
        processDocumentsInFolder envPersistFail = .error e2) :=
  persistence_failure_logged_and_batch_continues envPersistFail
    ⟨"pdf_1.pdf", some "u1"⟩ [] ⟨[], []⟩ "u1" "req-1"
    "5550001111 invoice page" "5550001111" "cosmos create failed"
    [("totalAmount", .num 500)] ⟨"Succeeded", some "5550001111 invoice page"⟩
    rfl (by decide) (by decide) rfl (by decide) rfl rfl rfl rfl rfl rfl rfl
    (by decide) rfl

/-- Counterexample for C2: a page classified TaxInvoice with
`is_document_complete` true whose persistence call raises leaves the
accumulation lists holding the page — they are not empty after the page
is processed, so clearing is not unconditional. -/
theorem accumulator_cleared_unconditionally_cex :
    (successPath envTaxPersistFailH taxPageResult (some "u2") ⟨[], []⟩).acc =
      ⟨["6660002222 tax invoice page"], [some "u2"]⟩
    ∧ (successPath envTaxPersistFailH taxPageResult (some "u2") ⟨[], []⟩).acc ≠
      ⟨[], []⟩ := by
  exact ⟨rfl, by decide⟩

/-- C2 (amended): after a page classified TaxInvoice and complete, the
accumulation lists are cleared when the tax-invoice extraction succeeds
and persistence succeeds or is skipped — irrespective of the merge
outcome, since `env.mergePdfs` is unconstrained here — but when either
the extraction call or the persistence call raises, the lists are left
holding every accumulated page including the current one. -/
theorem accumulator_cleared_on_successful_flush_only
    (env : HandlerEnv) (content : String) (fileUrl : Option String)
    (acc : AccState) (r : AnalyzerResult) (d0 : Dict) (urnv : String)
    (hLLM : env.hasLLM = true)
    (hmk : r.markdown = some content)
    (hcls : env.classify content = .ok ⟨ContentTypeTaxInvoice, true⟩) :
    (env.extractTaxInvoice
        (String.intercalate pageBreakSep (acc.content ++ [content])) = .ok d0 →
      env.hasCosmos = false → (successPath env r fileUrl acc).acc = ⟨[], []⟩)
    ∧ (env.extractTaxInvoice
        (String.intercalate pageBreakSep (acc.content ++ [content])) = .ok d0 →
      (∀ dd, env.createDoc "tax-invoices" dd = .ok ()) →
      (successPath env r fileUrl acc).acc = ⟨[], []⟩)
    ∧ (∀ e, env.extractTaxInvoice
        (String.intercalate pageBreakSep (acc.content ++ [content])) = .ok d0 →
      (∀ dd, env.createDoc "tax-invoices" dd = .error e) →
      env.hasCosmos = true → extractUrnFromContent content = some urnv →
      (successPath env r fileUrl acc).acc =
        ⟨acc.content ++ [content], acc.urls ++ [fileUrl]⟩)
    ∧ (∀ e2, env.extractTaxInvoice
        (String.intercalate pageBreakSep (acc.content ++ [content])) = .error e2 →
      (successPath env r fileUrl acc).acc =
        ⟨acc.content ++ [content], acc.urls ++ [fileUrl]⟩) := by
  refine ⟨?_, ?_, ?_, ?_⟩
  · intro hx hcos
    simp +decide [successPath, hLLM, hmk, hcls, hx, hcos, ContentTypeInvoice,
      ContentTypeTaxInvoice]
  · intro hx hcr
    simp +decide [successPath, hLLM, hmk, hcls, hx, hcr, ContentTypeInvoice,
      ContentTypeTaxInvoice]
    split <;> rfl
  · intro e hx hcr hcos hurn
    simp +decide [successPath, hLLM, hmk, hcls, hx, hcr, hcos, hurn,
      ContentTypeInvoice, ContentTypeTaxInvoice]
  · intro e2 hx
    simp +decide [successPath, hLLM, hmk, hcls, hx, ContentTypeInvoice,
      ContentTypeTaxInvoice]

/-- Witness for the amended C2 against `envFlushH` (no persistence
configured), `envTaxPersistFailH` (failing persistence) and
`envTaxExtractFailH` (failing extraction). -/
theorem accumulator_cleared_on_successful_flush_only_witness :
    (successPath envFlushH ⟨"Succeeded", some "B"⟩ (some "uB") ⟨["A"], [some "uA"]⟩).acc =
      ⟨[], []⟩
    ∧ (successPath envTaxPersistFailH taxPageResult (some "u2") ⟨[], []⟩).acc =
      ⟨["6660002222 tax invoice page"], [some "u2"]⟩
    ∧ (successPath envTaxExtractFailH ⟨"Succeeded", some "page X"⟩ (some "u3") ⟨[], []⟩).acc =
      ⟨["page X"], [some "u3"]⟩ := by
  have T1 := accumulator_cleared_on_successful_flush_only envFlushH "B" (some "uB")
    ⟨["A"], [some "uA"]⟩ ⟨"Succeeded", some "B"⟩ [("vatTotal", .num 3)] "unused"
    rfl rfl rfl
  have T2 := accumulator_cleared_on_successful_flush_only envTaxPersistFailH
    "6660002222 tax invoice page" (some "u2") ⟨[], []⟩ taxPageResult
    [("vatTotal", .num 11)] "6660002222"
    rfl rfl rfl
  have T3 := accumulator_cleared_on_successful_flush_only envTaxExtractFailH
    "page X" (some "u3") ⟨[], []⟩ ⟨"Succeeded", some "page X"⟩ [] "unused"
    rfl rfl rfl
  exact ⟨T1.1 rfl rfl,
    by simpa using T2.2.2.1 "cosmos create failed" rfl (fun _ => rfl) rfl (by decide),
    by simpa using T3.2.2.2 "llm extraction failed" rfl⟩

/-- Counterexample for C3: a GeneralLedger page whose text carries a
known ten-digit URN produces an extracted record tagged only with
`documentUrl` — it has no `urn` key and no generated-identifier key — so
not every extracted record shape is tagged as claimed. -/
theorem every_record_tagged_cex :
    successPath envGLH glPageResult (some "u") ⟨[], []⟩ =
      ⟨some (.doc [("glRows", .num 2), ("documentUrl", .str "u")]), ⟨[], []⟩, [], none⟩
    ∧ extractUrnFromContent "7770003333 general ledger page" = some "7770003333"
    ∧ getKey [("glRows", .num 2), ("documentUrl", .str "u")] "urn" = none := by
  exact ⟨rfl, by decide, by decide⟩

/-- C3 (amended): extracted Invoice records are tagged with the URN (null
when unknown), the generated `invoiceId` and the source `documentUrl`;
extracted TaxInvoice records with the URN, the generated `taxInvoiceId`,
the canonical `documentUrl` and `total_pages`; but extracted
GLTransaction records receive only `documentUrl` — every other key is
whatever the extraction returned, so no URN and no generated identifier
is added. -/
theorem record_tagging_by_shape
    (env : HandlerEnv) (cI cT cG u : String) (rI rT rG : AnalyzerResult)
    (dI dT dG : Dict) (acc : AccState)
    (hLLM : env.hasLLM = true) (hcos : env.hasCosmos = false)
    (hmkI : rI.markdown = some cI)
    (hclsI : env.classify cI = .ok ⟨ContentTypeInvoice, true⟩)
    (hxI : env.extractInvoice cI = .ok dI)
    (hmkT : rT.markdown = some cT)
    (hclsT : env.classify cT = .ok ⟨ContentTypeTaxInvoice, true⟩)
    (hxT : env.extractTaxInvoice cT = .ok dT)
    (hmkG : rG.markdown = some cG)
    (hclsG : env.classify cG = .ok ⟨ContentTypeGeneralLedger, true⟩)
    (hxG : env.extractGL cG = .ok dG) :
    (∃ d, (successPath env rI (some u) acc).ret = some (.doc d)
      ∧ getKey d "urn" = some (Value.ofOptStr (extractUrnFromContent cI))
      ∧ getKey d "invoiceId" = some (.str env.newId)
      ∧ getKey d "documentUrl" = some (.str u))
    ∧ (∃ d, (successPath env rT (some u) ⟨[], []⟩).ret = some (.doc d)
      ∧ getKey d "urn" = some (Value.ofOptStr (extractUrnFromContent cT))
      ∧ getKey d "taxInvoiceId" = some (.str env.newId)
      ∧ getKey d "documentUrl" = some (.str u)
      ∧ getKey d "total_pages" = some (.num 1))
    ∧ (∃ d, (successPath env rG (some u) acc).ret = some (.doc d)
      ∧ getKey d "documentUrl" = some (.str u)
      ∧ ∀ k, k ≠ "documentUrl" → getKey d k = getKey dG k) := by
  refine ⟨?_, ?_, ?_⟩
  · refine ⟨setKey (setKey (setKey dI "urn" (Value.ofOptStr (extractUrnFromContent cI)))
      "invoiceId" (.str env.newId)) "documentUrl" (.str u), ?_, ?_, ?_, ?_⟩
    · simp +decide [successPath, hLLM, hcos, hmkI, hclsI, hxI, Value.ofOptStr,
        ContentTypeInvoice]
    · rw [getKey_setKey_other _ _ _ _ (by decide), getKey_setKey_other _ _ _ _ (by decide),
        getKey_setKey_same]
    · rw [getKey_setKey_other _ _ _ _ (by decide), getKey_setKey_same]
    · rw [getKey_setKey_same]
  · refine ⟨setKey (setKey (setKey (setKey dT
      "urn" (Value.ofOptStr (extractUrnFromContent cT)))
      "taxInvoiceId" (.str env.newId)) "documentUrl" (.str u)) "total_pages" (.num 1),
      ?_, ?_, ?_, ?_, ?_⟩
    · simp +decide [successPath, hLLM, hcos, hmkT, hclsT, hxT, Value.ofOptStr,
        ContentTypeInvoice, ContentTypeTaxInvoice, intercalate_single]
    · rw [getKey_setKey_other _ _ _ _ (by decide), getKey_setKey_other _ _ _ _ (by decide),
        getKey_setKey_other _ _ _ _ (by decide), getKey_setKey_same]
    · rw [getKey_setKey_other _ _ _ _ (by decide), getKey_setKey_other _ _ _ _ (by decide),
        getKey_setKey_same]
    · rw [getKey_setKey_other _ _ _ _ (by decide), getKey_setKey_same]
    · rw [getKey_setKey_same]
  · refine ⟨setKey dG "documentUrl" (.str u), ?_, ?_, ?_⟩
    · simp +decide [successPath, hLLM, hmkG, hclsG, hxG, Value.ofOptStr,
        ContentTypeInvoice, ContentTypeTaxInvoice, ContentTypeGeneralLedger]
    · rw [getKey_setKey_same]
    · intro k hk
      exact getKey_setKey_other _ _ _ _ hk

/-- Witness for the amended C3 against `envTagH`. -/
theorem record_tagging_by_shape_witness :
    (∃ d, (successPath envTagH ⟨"Succeeded", some "inv page"⟩ (some "u") ⟨[], []⟩).ret =
        some (.doc d)
      ∧ getKey d "urn" = some (Value.ofOptStr (extractUrnFromContent "inv page"))
      ∧ getKey d "invoiceId" = some (.str envTagH.newId)
      ∧ getKey d "documentUrl" = some (.str "u"))
    ∧ (∃ d, (successPath envTagH ⟨"Succeeded", some "tax page"⟩ (some "u") ⟨[], []⟩).ret =
        some (.doc d)
      ∧ getKey d "urn" = some (Value.ofOptStr (extractUrnFromContent "tax page"))
      ∧ getKey d "taxInvoiceId" = some (.str envTagH.newId)
      ∧ getKey d "documentUrl" = some (.str "u")
      ∧ getKey d "total_pages" = some (.num 1))
    ∧ (∃ d, (successPath envTagH ⟨"Succeeded", some "gl page"⟩ (some "u") ⟨[], []⟩).ret =
        some (.doc d)
      ∧ getKey d "documentUrl" = some (.str "u")
      ∧ ∀ k, k ≠ "documentUrl" → getKey d k = getKey [("gl", .num 3)] k) :=
  record_tagging_by_shape envTagH "inv page" "tax page" "gl page" "u"
    ⟨"Succeeded", some "inv page"⟩ ⟨"Succeeded", some "tax page"⟩
    ⟨"Succeeded", some "gl page"⟩
    [("amount", .num 1)] [("vat", .num 2)] [("gl", .num 3)] ⟨[], []⟩
    rfl rfl rfl rfl rfl rfl rfl rfl rfl rfl rfl

/-- Counterexample for C10: the text `a1234567890` contains a run of ten
digits (that run alone is extracted as a URN when standing by itself),
yet URN extraction on the full text returns `None` because the run is
preceded by the word character `a` and the pattern requires word
boundaries; consequently the Invoice record is returned as the file's
outcome but nothing is persisted, although a document store is configured
and accepting writes. -/
theorem urn_first_digit_run_cex :
    extractUrnFromContent "a1234567890" = none
    ∧ extractUrnFromContent "1234567890" = some "1234567890"
    ∧ successPath envUrnMissH urnMissResult (some "u") ⟨[], []⟩ =
        ⟨some (.doc [("totalAmount", .num 7), ("urn", .null),
          ("invoiceId", .str "uuid-4"), ("documentUrl", .str "u")]),
          ⟨[], []⟩, [], none⟩ := by
  exact ⟨by decide, by decide, rfl⟩

/-- C10 (amended): an extracted Invoice or TaxInvoice record is written to
the document store only when a URN was extracted — where the URN is the
first run of ten or more digits delimited by word boundaries (not
adjacent to a letter, digit or underscore) in the stripped text — and a
store is configured; when no such URN exists or no store is configured,
the extraction result is still returned as the file's outcome but nothing
is persisted, and URN extraction itself is total (returns an `Option`,
never raising). -/
theorem invoice_persisted_only_with_urn_and_store
    (env : HandlerEnv) (cI cT u : String) (rI rT : AnalyzerResult)
    (dI dT : Dict) (acc : AccState)
    (hLLM : env.hasLLM = true)
    (hmkI : rI.markdown = some cI)
    (hclsI : env.classify cI = .ok ⟨ContentTypeInvoice, true⟩)
    (hxI : env.extractInvoice cI = .ok dI)
    (hmkT : rT.markdown = some cT)
    (hclsT : env.classify cT = .ok ⟨ContentTypeTaxInvoice, true⟩)
    (hxT : env.extractTaxInvoice
      (String.intercalate pageBreakSep (acc.content ++ [cT])) = .ok dT) :
    (extractUrnFromContent cI = none →
      successPath env rI (some u) acc =
        ⟨some (.doc (setKey (setKey (setKey dI "urn" .null)
          "invoiceId" (.str env.newId)) "documentUrl" (.str u))), acc, [], none⟩)
    ∧ (env.hasCosmos = false →
      successPath env rI (some u) acc =
        ⟨some (.doc (setKey (setKey (setKey dI
          "urn" (Value.ofOptStr (extractUrnFromContent cI)))
          "invoiceId" (.str env.newId)) "documentUrl" (.str u))), acc, [], none⟩)
    ∧ (∀ urnv, extractUrnFromContent cI = some urnv → env.hasCosmos = true →
        env.createDoc "invoices" (setKey (setKey (setKey dI "urn" (.str urnv))
          "invoiceId" (.str env.newId)) "documentUrl" (.str u)) = .ok () →
        (successPath env rI (some u) acc).persisted =
          [("invoices", setKey (setKey (setKey dI "urn" (.str urnv))
            "invoiceId" (.str env.newId)) "documentUrl" (.str u))])
    ∧ (extractUrnFromContent cT = none →
        (successPath env rT (some u) acc).persisted = []
        ∧ ∃ dd, (successPath env rT (some u) acc).ret = some (.doc dd))
    ∧ (env.hasCosmos = false →
        (successPath env rT (some u) acc).persisted = []
        ∧ ∃ dd, (successPath env rT (some u) acc).ret = some (.doc dd))
    ∧ (∀ urnv, extractUrnFromContent cT = some urnv → env.hasCosmos = true →
        (∀ dd, env.createDoc "tax-invoices" dd = .ok ()) →
        ∃ dd, (successPath env rT (some u) acc).persisted = [("tax-invoices", dd)]
          ∧ (successPath env rT (some u) acc).ret = some (.doc dd)) := by
  refine ⟨?_, ?_, ?_, ?_, ?_, ?_⟩
  · intro hurn
    simp +decide [successPath, hLLM, hmkI, hclsI, hxI, hurn, Value.ofOptStr,
      ContentTypeInvoice]
  · intro hcos
    simp +decide [successPath, hLLM, hmkI, hclsI, hxI, hcos, Value.ofOptStr,
      ContentTypeInvoice]
  · intro urnv hurn hcos hcr
    simp +decide [successPath, hLLM, hmkI, hclsI, hxI, hurn, hcos, hcr,
      Value.ofOptStr, ContentTypeInvoice]
  · intro hurn
    simp +decide [successPath, hLLM, hmkT, hclsT, hxT, hurn,
      ContentTypeInvoice, ContentTypeTaxInvoice]
  · intro hcos
    simp +decide [successPath, hLLM, hmkT, hclsT, hxT, hcos,
      ContentTypeInvoice, ContentTypeTaxInvoice]
  · intro urnv hurn hcos hcr
    simp +decide [successPath, hLLM, hmkT, hclsT, hxT, hurn, hcos, hcr,
      ContentTypeInvoice, ContentTypeTaxInvoice]

/-- Witness for the amended C10 against `envTagCosmosH`: boundary-blocked
or URN-free texts yield unpersisted Invoice and TaxInvoice outcomes, and
texts starting with a bare ten-digit run are persisted on both paths. -/
theorem invoice_persisted_only_with_urn_and_store_witness :
    successPath envTagCosmosH ⟨"Succeeded", some "inv page"⟩ (some "u") ⟨[], []⟩ =
      ⟨some (.doc (setKey (setKey (setKey [("amount", .num 1)] "urn" .null)
        "invoiceId" (.str envTagCosmosH.newId)) "documentUrl" (.str "u"))),
        ⟨[], []⟩, [], none⟩
    ∧ ((successPath envTagCosmosH ⟨"Succeeded", some "a1234567890"⟩
          (some "u") ⟨[], []⟩).persisted = []
        ∧ ∃ dd, (successPath envTagCosmosH ⟨"Succeeded", some "a1234567890"⟩
          (some "u") ⟨[], []⟩).ret = some (.doc dd))
    ∧ (successPath envTagCosmosH ⟨"Succeeded", some "9990001111 inv"⟩
          (some "u") ⟨[], []⟩).persisted =
        [("invoices", setKey (setKey (setKey [("amount", .num 1)]
          "urn" (.str "9990001111"))
          "invoiceId" (.str envTagCosmosH.newId)) "documentUrl" (.str "u"))]
    ∧ ∃ dd, (successPath envTagCosmosH ⟨"Succeeded", some "6660002222 tax"⟩
          (some "u") ⟨[], []⟩).persisted = [("tax-invoices", dd)]
        ∧ (successPath envTagCosmosH ⟨"Succeeded", some "6660002222 tax"⟩
          (some "u") ⟨[], []⟩).ret = some (.doc dd) := by
  have TA := invoice_persisted_only_with_urn_and_store envTagCosmosH
    "inv page" "a1234567890" "u"
    ⟨"Succeeded", some "inv page"⟩ ⟨"Succeeded", some "a1234567890"⟩
    [("amount", .num 1)] [("vat", .num 2)] ⟨[], []⟩
    rfl rfl rfl rfl rfl rfl rfl
  have TB := invoice_persisted_only_with_urn_and_store envTagCosmosH
    "9990001111 inv" "6660002222 tax" "u"
    ⟨"Succeeded", some "9990001111 inv"⟩ ⟨"Succeeded", some "6660002222 tax"⟩
    [("amount", .num 1)] [("vat", .num 2)] ⟨[], []⟩
    rfl rfl rfl rfl rfl rfl rfl
  exact ⟨TA.1 (by decide), TA.2.2.2.1 (by decide),
    TB.2.2.1 "9990001111" (by decide) rfl rfl,
    TB.2.2.2.2.2 "6660002222" (by decide) rfl (fun _ => rfl)⟩

end CE
